import Mathlib

/-!
Shallow embedding of the turbulence-inlet-calculator core
(`src/streamlitTurbulenceInletCalculator.py`): the geometry, velocity and
length-scale resolvers, the internal-flow turbulence property calculation,
the external/general heuristic table, and the Dirichlet back-calculation.
Machine floats are modelled as real numbers.
-/

namespace TurbCalc

/-- Standard k-epsilon model constant (`C_MU = 0.09` in the source, line 5). -/
noncomputable def C_MU : ℝ := 0.09

/-- Turbulence model selection (`model_options`, source line 29):
1 = Spalart-Allmaras, 2 = k-epsilon based, 3 = k-omega based. -/
inductive ModelChoice
  | SpalartAllmaras
  | KEpsilon
  | KOmega

/-- Application selection (`app_options`, source lines 36-43):
1 = wall-bounded, 2 = jet inlet, 3 = external aero, 4 = high-speed complex,
5 = pumps/compressors, 6 = unsure/general. -/
inductive AppChoice
  | WallBounded
  | JetInlet
  | ExternalAero
  | HighSpeedComplex
  | PumpCompressor
  | Unsure

/-- Internal applications are `app_choice in [1, 2]` (source line 62). -/
def isInternal : AppChoice → Bool
  | AppChoice.WallBounded => true
  | AppChoice.JetInlet => true
  | _ => false

/-- Geometry variants (`cross_sec_options`, source lines 68-71). -/
inductive GeometrySpec
  | Circular (d : ℝ)
  | Annular (din dout : ℝ)
  | Square (s : ℝ)
  | Rectangular (a b : ℝ)
  | Channel2D (a : ℝ)
  | AreaPerimeter (a p : ℝ)
  | ExplicitDh (d : ℝ)

/-- Error raised when the Annular branch rejects `Dout <= Din`
(source lines 89-91: `st.error(...)` followed by `st.stop()`). -/
inductive GeomError
  | InvalidGeometry

/-- Geometry resolver (source lines 79-114): each branch of the
`cross_sec_choice` conditional assigns `Dh` and `A`; `A` stays `None` for the
2D channel (line 104); the Annular branch aborts when `Dout <= Din`. -/
noncomputable def resolve_geometry : GeometrySpec → Except GeomError (ℝ × Option ℝ)
  | GeometrySpec.Circular d => Except.ok (d, some (Real.pi / 4 * d ^ 2))
  | GeometrySpec.Annular din dout =>
      if din < dout then
        Except.ok (dout - din, some (Real.pi / 4 * (dout ^ 2 - din ^ 2)))
      else
        Except.error GeomError.InvalidGeometry
  | GeometrySpec.Square s => Except.ok (s, some (s ^ 2))
  | GeometrySpec.Rectangular a b => Except.ok (2 * a * b / (a + b), some (a * b))
  | GeometrySpec.Channel2D a => Except.ok (2 * a, none)
  | GeometrySpec.AreaPerimeter a p => Except.ok (4 * a / p, some a)
  | GeometrySpec.ExplicitDh d => Except.ok (d, some (Real.pi / 4 * d ^ 2))

/-- Flow specification variants (`vel_type_options`, source line 123). -/
inductive FlowSpec
  | Velocity (u : ℝ)
  | MassFlowRate (mdot : ℝ)
  | VolumeFlowRate (qdot : ℝ)

/-- Error for a flow-rate specification on a geometry with no defined area.
In the source the combination is rejected structurally: when `is_2d_channel`
is set (area `A = None`), lines 118-121 offer only the velocity input, so the
mass/volume branches (lines 132-137), which divide by `A`, are never entered.
That rejection is embedded as this error, named `UndefinedArea` after the
spec's contract for `resolve_velocity`. -/
inductive VelError
  | UndefinedArea

/-- Velocity resolver (source lines 118-137): velocity passes through;
mass flow gives `U = mdot / (rho * A)`; volume flow gives `U = qdot / A`;
flow-rate specifications with `A = None` are rejected (see `VelError`). -/
noncomputable def resolve_velocity : FlowSpec → ℝ → Option ℝ → Except VelError ℝ
  | FlowSpec.Velocity u, _, _ => Except.ok u
  | FlowSpec.MassFlowRate mdot, rho, some a => Except.ok (mdot / (rho * a))
  | FlowSpec.MassFlowRate _, _, none => Except.error VelError.UndefinedArea
  | FlowSpec.VolumeFlowRate qdot, _, some a => Except.ok (qdot / a)
  | FlowSpec.VolumeFlowRate _, _, none => Except.error VelError.UndefinedArea

/-- Boundary-layer thickness mode (`delta_choice` radio, source lines 153-162):
either estimated for fully developed flow or specified by the user. -/
inductive ThicknessMode
  | Estimated
  | Specified (delta : ℝ)

/-- Turbulence-generation variants (`l_choice_options`, source lines 140-144). -/
inductive TurbGenSpec
  | CrossSectionBased
  | BoundaryLayer (m : ThicknessMode)
  | CharacteristicLength (v : ℝ)

/-- Length-scale resolver (source lines 150-166): `l = 0.07*Dh` for the
cross-section heuristic; `l = 0.4*delta_99` with `delta_99 = Dh/2` estimated
or user-specified; the characteristic length passes through. -/
noncomputable def resolve_length_scale : TurbGenSpec → ℝ → ℝ
  | TurbGenSpec.CrossSectionBased, dh => 0.07 * dh
  | TurbGenSpec.BoundaryLayer ThicknessMode.Estimated, dh => 0.4 * (dh / 2)
  | TurbGenSpec.BoundaryLayer (ThicknessMode.Specified delta), _ => 0.4 * delta
  | TurbGenSpec.CharacteristicLength v, _ => v

/-- External/general heuristic table (source lines 173-178): the `(I, visc_rat)`
pair fixed by the application choice; only applied when `isInternal` is false
(the final case covers `Unsure`, the source's `else`). -/
noncomputable def externalPair : AppChoice → ℝ × ℝ
  | AppChoice.ExternalAero => (0.01, 1.0)
  | AppChoice.HighSpeedComplex => (0.1, 10.0)
  | AppChoice.PumpCompressor => (0.1, 10.0)
  | _ => (0.05, 5.0)

/-- Result of the internal-flow calculation (source lines 188-198). The
source initializes all result variables to `None` (line 58); in this branch
`Re`, `I`, `k` and `visc_rat` are always assigned, while `omega` and
`epsilon` are assigned only when `k > 0 and l > 0`, hence the `Option`s. -/
structure InternalResult where
  re : ℝ
  intensity : ℝ
  k : Option ℝ
  omega : Option ℝ
  epsilon : Option ℝ
  visc_rat : ℝ

/-- Internal-flow turbulence calculation (source lines 188-198):
`Re = rho*U*Dh/mu`; `I = 0.16 * Re**-0.125`; `k = 1.5*(U*I)**2`; then if
`k > 0 and l > 0`: `omega = C_MU**-0.25 * sqrt(k)/l`,
`epsilon = C_MU*k*omega`, `mut = rho*k/omega`, `visc_rat = mut/mu`;
else only `visc_rat = 1.0` (default fallback). -/
noncomputable def internalCalc (rho mu dh u l : ℝ) : InternalResult :=
  let re := rho * u * dh / mu
  let i := 0.16 * re ^ (-0.125 : ℝ)
  let k := 1.5 * (u * i) ^ 2
  if 0 < k ∧ 0 < l then
    let omega := C_MU ^ (-0.25 : ℝ) * Real.sqrt k / l
    let epsilon := C_MU * k * omega
    let muT := rho * k / omega
    ⟨re, i, some k, some omega, some epsilon, muT / mu⟩
  else
    ⟨re, i, some k, none, none, 1.0⟩

/-- Result of the Dirichlet back-calculation (source lines 233-243).
`omega = none` stands for the source's `float('inf')` sentinel (line 237),
and `epsilon`, computed from `omega`, inherits that sentinel; `nuTilda` is
assigned only for the Spalart-Allmaras model (lines 242-243). -/
structure DirichletResult where
  k : ℝ
  muT : ℝ
  omega : Option ℝ
  epsilon : Option ℝ
  nuTilda : Option ℝ

/-- Dirichlet back-calculation (source lines 233-243), run from the resolved
`U`, `I` and `visc_rat` independent of the internal/external branch:
`k = 1.5*(U*I)**2`; `mut = visc_rat*mu`; `omega = rho*k/mut if mut > 0 else
float('inf')`; `epsilon = C_MU*k*omega`; and for Spalart-Allmaras only,
`nuTilda = visc_rat*mu/rho`. -/
noncomputable def dirichletCalc (model : ModelChoice) (rho mu u i visc_rat : ℝ) :
    DirichletResult :=
  let k := 1.5 * (u * i) ^ 2
  let muT := visc_rat * mu
  let omega : Option ℝ := if 0 < muT then some (rho * k / muT) else none
  let epsilon : Option ℝ := omega.map (fun w => C_MU * k * w)
  let nuTilda : Option ℝ :=
    match model with
    | ModelChoice.SpalartAllmaras => some (visc_rat * mu / rho)
    | _ => none
  ⟨k, muT, omega, epsilon, nuTilda⟩

/-- Positivity of the raw scalars feeding a turbulence-generator spec; every
such widget in the source has `min_value=1e-9` (lines 162, 165). -/
def genPositive : TurbGenSpec → Prop
  | TurbGenSpec.BoundaryLayer (ThicknessMode.Specified delta) => 0 < delta
  | TurbGenSpec.CharacteristicLength v => 0 < v
  | _ => True

/-- Claim C3: for every external/general application the calculator uses the
fixed heuristic pair, with no dependence on geometry, Dh, l, or Re:
ExternalAero gives I = 0.01 and viscosity_ratio = 1.0; HighSpeedComplex and
PumpCompressor give I = 0.10 and viscosity_ratio = 10.0; Unsure gives
I = 0.05 and viscosity_ratio = 5.0 (`externalPair` takes only the
application choice, so independence from geometry is by construction). -/
theorem external_heuristic_pairs :
    externalPair AppChoice.ExternalAero = (0.01, 1.0) ∧
    externalPair AppChoice.HighSpeedComplex = (0.1, 10.0) ∧
    externalPair AppChoice.PumpCompressor = (0.1, 10.0) ∧
    externalPair AppChoice.Unsure = (0.05, 5.0) :=
  ⟨rfl, rfl, rfl, rfl⟩

/-- Claim C7: the resolved turbulence length scale is `0.07*Dh` for the
cross-section heuristic, `0.4*(Dh/2)` for an estimated boundary layer,
`0.4*delta` for a specified boundary-layer thickness `delta`, and the value
itself for a characteristic length. -/
theorem length_scale_resolution (dh delta v : ℝ) :
    resolve_length_scale TurbGenSpec.CrossSectionBased dh = 0.07 * dh ∧
    resolve_length_scale (TurbGenSpec.BoundaryLayer ThicknessMode.Estimated) dh
      = 0.4 * (dh / 2) ∧
    resolve_length_scale
        (TurbGenSpec.BoundaryLayer (ThicknessMode.Specified delta)) dh
      = 0.4 * delta ∧
    resolve_length_scale (TurbGenSpec.CharacteristicLength v) dh = v :=
  ⟨rfl, rfl, rfl, rfl⟩

/-- Claim C2: for every geometry variant with positive dimension inputs the
geometry resolver returns exactly the spec table's pair `(Dh, A)`:
Circular(d) gives (d, pi/4*d^2); Annular(din,dout) with dout > din gives
(dout-din, pi/4*(dout^2-din^2)); Square(s) gives (s, s^2); Rectangular(a,b)
gives (2ab/(a+b), a*b); Channel2D(a) gives (2a, undefined);
AreaPerimeter(A,P) gives (4A/P, A); ExplicitDh(d) gives (d, pi/4*d^2). -/
theorem geometry_resolution_table (d din dout s a b ar p : ℝ)
    (hd : 0 < d) (hdin : 0 < din) (hio : din < dout) (hs : 0 < s)
    (ha : 0 < a) (hb : 0 < b) (har : 0 < ar) (hp : 0 < p) :
    resolve_geometry (GeometrySpec.Circular d)
      = Except.ok (d, some (Real.pi / 4 * d ^ 2)) ∧
    resolve_geometry (GeometrySpec.Annular din dout)
      = Except.ok (dout - din, some (Real.pi / 4 * (dout ^ 2 - din ^ 2))) ∧
    resolve_geometry (GeometrySpec.Square s) = Except.ok (s, some (s ^ 2)) ∧
    resolve_geometry (GeometrySpec.Rectangular a b)
      = Except.ok (2 * a * b / (a + b), some (a * b)) ∧
    resolve_geometry (GeometrySpec.Channel2D a) = Except.ok (2 * a, none) ∧
    resolve_geometry (GeometrySpec.AreaPerimeter ar p)
      = Except.ok (4 * ar / p, some ar) ∧
    resolve_geometry (GeometrySpec.ExplicitDh d)
      = Except.ok (d, some (Real.pi / 4 * d ^ 2)) := by
  refine ⟨rfl, ?_, rfl, rfl, rfl, rfl, rfl⟩
  simp only [resolve_geometry]
  rw [if_pos hio]

/-- Witness for `geometry_resolution_table` at concrete dimensions. -/
theorem geometry_resolution_table_witness :
    (0 : ℝ) < 1 ∧ (0 : ℝ) < 1 ∧ (1 : ℝ) < 2 ∧
    (resolve_geometry (GeometrySpec.Circular 1)
        = Except.ok (1, some (Real.pi / 4 * 1 ^ 2)) ∧
      resolve_geometry (GeometrySpec.Annular 1 2)
        = Except.ok (2 - 1, some (Real.pi / 4 * ((2 : ℝ) ^ 2 - 1 ^ 2))) ∧
      resolve_geometry (GeometrySpec.Square 1)
        = Except.ok (1, some ((1 : ℝ) ^ 2)) ∧
      resolve_geometry (GeometrySpec.Rectangular 1 1)
        = Except.ok (2 * 1 * 1 / (1 + 1), some ((1 : ℝ) * 1)) ∧
      resolve_geometry (GeometrySpec.Channel2D 1) = Except.ok (2 * 1, none) ∧
      resolve_geometry (GeometrySpec.AreaPerimeter 1 1)
        = Except.ok (4 * 1 / 1, some 1) ∧
      resolve_geometry (GeometrySpec.ExplicitDh 1)
        = Except.ok (1, some (Real.pi / 4 * 1 ^ 2))) :=
  ⟨by norm_num, by norm_num, by norm_num,
    geometry_resolution_table 1 1 2 1 1 1 1 1 (by norm_num) (by norm_num)
      (by norm_num) (by norm_num) (by norm_num) (by norm_num) (by norm_num)
      (by norm_num)⟩

/-- Claim C5: an Annular geometry with outer diameter at most the inner
diameter fails with `InvalidGeometry` and produces no partial result, while
outer > inner succeeds with the resolved pair. -/
theorem annular_geometry_check (din dout : ℝ) :
    (dout ≤ din →
      resolve_geometry (GeometrySpec.Annular din dout)
        = Except.error GeomError.InvalidGeometry) ∧
    (din < dout →
      resolve_geometry (GeometrySpec.Annular din dout)
        = Except.ok (dout - din, some (Real.pi / 4 * (dout ^ 2 - din ^ 2)))) := by
  constructor <;> intro h <;> simp only [resolve_geometry]
  · rw [if_neg (not_lt.mpr h)]
  · rw [if_pos h]

/-- Witness for `annular_geometry_check`: the spec's Scenario 3
(din = 1.0, dout = 0.5) is rejected, and din = 0.5, dout = 1.0 succeeds. -/
theorem annular_geometry_check_witness :
    ((0.5 : ℝ) ≤ 1 ∧
      resolve_geometry (GeometrySpec.Annular 1 0.5)
        = Except.error GeomError.InvalidGeometry) ∧
    ((0.5 : ℝ) < 1 ∧
      resolve_geometry (GeometrySpec.Annular 0.5 1)
        = Except.ok (1 - 0.5, some (Real.pi / 4 * ((1 : ℝ) ^ 2 - 0.5 ^ 2)))) :=
  ⟨⟨by norm_num, (annular_geometry_check 1 0.5).1 (by norm_num)⟩,
    ⟨by norm_num, (annular_geometry_check 0.5 1).2 (by norm_num)⟩⟩

/-- Claim C6: with Channel2D geometry the resolved area is undefined, and a
MassFlowRate or VolumeFlowRate specification against an undefined area fails
with `UndefinedArea`, producing no velocity. -/
theorem channel2d_flow_rate_fails (a rho mdot qdot : ℝ) :
    (Except.map Prod.snd (resolve_geometry (GeometrySpec.Channel2D a))
      = Except.ok none) ∧
    resolve_velocity (FlowSpec.MassFlowRate mdot) rho none
      = Except.error VelError.UndefinedArea ∧
    resolve_velocity (FlowSpec.VolumeFlowRate qdot) rho none
      = Except.error VelError.UndefinedArea :=
  ⟨rfl, rfl, rfl⟩

/-- Claim C8: with a defined positive area and positive density, the resolved
bulk velocity is the velocity itself, `mdot/(rho*A)` for a mass flow rate, and
`qdot/A` for a volume flow rate. -/
theorem velocity_resolution (u mdot qdot rho ar : ℝ)
    (hrho : 0 < rho) (har : 0 < ar) :
    resolve_velocity (FlowSpec.Velocity u) rho (some ar) = Except.ok u ∧
    resolve_velocity (FlowSpec.MassFlowRate mdot) rho (some ar)
      = Except.ok (mdot / (rho * ar)) ∧
    resolve_velocity (FlowSpec.VolumeFlowRate qdot) rho (some ar)
      = Except.ok (qdot / ar) :=
  ⟨rfl, rfl, rfl⟩

/-- Witness for `velocity_resolution` at concrete inputs. -/
theorem velocity_resolution_witness :
    (0 : ℝ) < 2 ∧ (0 : ℝ) < 4 ∧
    (resolve_velocity (FlowSpec.Velocity 10) 2 (some 4) = Except.ok 10 ∧
      resolve_velocity (FlowSpec.MassFlowRate 1) 2 (some 4)
        = Except.ok (1 / (2 * 4)) ∧
      resolve_velocity (FlowSpec.VolumeFlowRate 1) 2 (some 4)
        = Except.ok (1 / 4)) :=
  ⟨by norm_num, by norm_num,
    velocity_resolution 10 1 1 2 4 (by norm_num) (by norm_num)⟩

/-- Claim C9: for a Rectangular geometry with positive sides the resolved
hydraulic diameter is `2ab/(a+b)` and satisfies `Dh ≤ min (2a) (2b)`. -/
theorem rectangular_dh_bound (a b : ℝ) (ha : 0 < a) (hb : 0 < b) :
    resolve_geometry (GeometrySpec.Rectangular a b)
      = Except.ok (2 * a * b / (a + b), some (a * b)) ∧
    2 * a * b / (a + b) ≤ min (2 * a) (2 * b) := by
  refine ⟨rfl, le_min ?_ ?_⟩
  · rw [div_le_iff₀ (by linarith)]
    nlinarith
  · rw [div_le_iff₀ (by linarith)]
    nlinarith

/-- Witness for `rectangular_dh_bound` at sides 2 and 1. -/
theorem rectangular_dh_bound_witness :
    (0 : ℝ) < 2 ∧ (0 : ℝ) < 1 ∧
    (resolve_geometry (GeometrySpec.Rectangular 2 1)
        = Except.ok (2 * 2 * 1 / (2 + 1), some ((2 : ℝ) * 1)) ∧
      2 * 2 * 1 / (2 + 1) ≤ min (2 * (2 : ℝ)) (2 * 1)) :=
  ⟨by norm_num, by norm_num, rectangular_dh_bound 2 1 (by norm_num) (by norm_num)⟩

/-- Formula from the spec, Branch A step 1: `Re = rho*U*Dh/mu`. -/
noncomputable def specRe (rho mu dh u : ℝ) : ℝ := rho * u * dh / mu

/-- Formula from the spec, Branch A step 2: `I = 0.16*Re^(-0.125)`. -/
noncomputable def specI (rho mu dh u : ℝ) : ℝ :=
  0.16 * specRe rho mu dh u ^ (-0.125 : ℝ)

/-- Formula from the spec, Branch A step 3: `k = 1.5*(U*I)^2`. -/
noncomputable def specK (rho mu dh u : ℝ) : ℝ :=
  1.5 * (u * specI rho mu dh u) ^ 2

/-- Formula from the spec, Branch A step 4: `omega = Cmu^(-0.25)*sqrt(k)/l`. -/
noncomputable def specOmega (rho mu dh u l : ℝ) : ℝ :=
  C_MU ^ (-0.25 : ℝ) * Real.sqrt (specK rho mu dh u) / l

/-- Formula from the spec, Branch A step 4: `epsilon = Cmu*k*omega`. -/
noncomputable def specEpsilon (rho mu dh u l : ℝ) : ℝ :=
  C_MU * specK rho mu dh u * specOmega rho mu dh u l

/-- Formula from the spec, Branch A step 4: `mu_t = rho*k/omega`. -/
noncomputable def specMuT (rho mu dh u l : ℝ) : ℝ :=
  rho * specK rho mu dh u / specOmega rho mu dh u l

/-- Unfolding lemma: `internalCalc` when the guard `k > 0 and l > 0` holds. -/
theorem internalCalc_pos_branch (rho mu dh u l : ℝ)
    (hk : 0 < 1.5 * (u * (0.16 * (rho * u * dh / mu) ^ (-0.125 : ℝ))) ^ 2)
    (hl : 0 < l) :
    internalCalc rho mu dh u l =
      ⟨rho * u * dh / mu,
        0.16 * (rho * u * dh / mu) ^ (-0.125 : ℝ),
        some (1.5 * (u * (0.16 * (rho * u * dh / mu) ^ (-0.125 : ℝ))) ^ 2),
        some (C_MU ^ (-0.25 : ℝ) *
          Real.sqrt (1.5 * (u * (0.16 * (rho * u * dh / mu) ^ (-0.125 : ℝ))) ^ 2) / l),
        some (C_MU * (1.5 * (u * (0.16 * (rho * u * dh / mu) ^ (-0.125 : ℝ))) ^ 2) *
          (C_MU ^ (-0.25 : ℝ) *
            Real.sqrt (1.5 * (u * (0.16 * (rho * u * dh / mu) ^ (-0.125 : ℝ))) ^ 2) / l)),
        rho * (1.5 * (u * (0.16 * (rho * u * dh / mu) ^ (-0.125 : ℝ))) ^ 2) /
          (C_MU ^ (-0.25 : ℝ) *
            Real.sqrt (1.5 * (u * (0.16 * (rho * u * dh / mu) ^ (-0.125 : ℝ))) ^ 2) / l) /
          mu⟩ := by
  simp only [internalCalc]
  rw [if_pos ⟨hk, hl⟩]

/-- Unfolding lemma: `internalCalc` when the guard `k > 0 and l > 0` fails;
only `visc_rat` is (re)assigned, to the default `1.0`, but `k` keeps the value
assigned before the guard. -/
theorem internalCalc_fallback (rho mu dh u l : ℝ)
    (h : ¬(0 < 1.5 * (u * (0.16 * (rho * u * dh / mu) ^ (-0.125 : ℝ))) ^ 2 ∧ 0 < l)) :
    internalCalc rho mu dh u l =
      ⟨rho * u * dh / mu,
        0.16 * (rho * u * dh / mu) ^ (-0.125 : ℝ),
        some (1.5 * (u * (0.16 * (rho * u * dh / mu) ^ (-0.125 : ℝ))) ^ 2),
        none, none, 1.0⟩ := by
  simp only [internalCalc]
  rw [if_neg h]

/-- Claim C1 (amended): for every internal-flow calculation with resolved
inputs rho, mu, Dh, U, l, the calculator computes `Re = rho*U*Dh/mu`,
`I = 0.16*Re^(-0.125)`, `k = 1.5*(U*I)^2`; if `k > 0` and `l > 0` it computes
`omega = C_mu^(-0.25)*sqrt(k)/l` with `C_mu = 0.09`,
`epsilon = C_mu*k*omega`, `mu_t = rho*k/omega`,
`viscosity_ratio = mu_t/mu`; otherwise it sets `viscosity_ratio = 1.0` and
leaves omega and epsilon undefined rather than raising an error — while `k`,
assigned before the guard, remains defined in both cases. -/
theorem internal_flow_formulas (rho mu dh u l : ℝ) :
    (internalCalc rho mu dh u l).re = specRe rho mu dh u ∧
    (internalCalc rho mu dh u l).intensity = specI rho mu dh u ∧
    (internalCalc rho mu dh u l).k = some (specK rho mu dh u) ∧
    (0 < specK rho mu dh u ∧ 0 < l →
      (internalCalc rho mu dh u l).omega = some (specOmega rho mu dh u l) ∧
      (internalCalc rho mu dh u l).epsilon = some (specEpsilon rho mu dh u l) ∧
      (internalCalc rho mu dh u l).visc_rat = specMuT rho mu dh u l / mu) ∧
    (¬(0 < specK rho mu dh u ∧ 0 < l) →
      (internalCalc rho mu dh u l).omega = none ∧
      (internalCalc rho mu dh u l).epsilon = none ∧
      (internalCalc rho mu dh u l).visc_rat = 1.0) := by
  simp only [specRe, specI, specK, specOmega, specEpsilon, specMuT]
  by_cases h :
      0 < 1.5 * (u * (0.16 * (rho * u * dh / mu) ^ (-0.125 : ℝ))) ^ 2 ∧ 0 < l
  · rw [internalCalc_pos_branch rho mu dh u l h.1 h.2]
    exact ⟨rfl, rfl, rfl, fun _ => ⟨rfl, rfl, rfl⟩, fun hn => absurd h hn⟩
  · rw [internalCalc_fallback rho mu dh u l h]
    exact ⟨rfl, rfl, rfl, fun hp => absurd hp h, fun _ => ⟨rfl, rfl, rfl⟩⟩

/-- Witness for `internal_flow_formulas` at rho = mu = Dh = U = l = 1, where
the guard holds (there `Re = 1` and `k = 1.5*0.16^2 > 0`). -/
theorem internal_flow_formulas_witness :
    (0 < specK 1 1 1 1 ∧ (0 : ℝ) < 1) ∧
    (internalCalc 1 1 1 1 1).omega = some (specOmega 1 1 1 1 1) ∧
    (internalCalc 1 1 1 1 1).epsilon = some (specEpsilon 1 1 1 1 1) ∧
    (internalCalc 1 1 1 1 1).visc_rat = specMuT 1 1 1 1 1 / 1 := by
  have h : 0 < specK 1 1 1 1 ∧ (0 : ℝ) < 1 := by
    constructor
    · unfold specK specI specRe
      have h1 : ((1 : ℝ) * 1 * 1 / 1) = 1 := by norm_num
      rw [h1, Real.one_rpow]
      norm_num
    · norm_num
  exact ⟨h, (internal_flow_formulas 1 1 1 1 1).2.2.2.1 h⟩

/-- Counterexample to claim C1 as stated: at rho = mu = Dh = U = 1 and
l = 0, the fallback branch is taken (`visc_rat = 1.0`), yet `k` is not left
undefined — it was assigned before the guard. -/
theorem internal_fallback_keeps_k :
    (internalCalc 1 1 1 1 0).visc_rat = 1.0 ∧ (internalCalc 1 1 1 1 0).k ≠ none := by
  rw [internalCalc_fallback 1 1 1 1 0 (by rintro ⟨-, h⟩; exact lt_irrefl 0 h)]
  exact ⟨rfl, fun h => Option.noConfusion h⟩

/-- Unfolding lemma for the Dirichlet back-calculation. -/
theorem dirichletCalc_eq (model : ModelChoice) (rho mu u i vr : ℝ) :
    dirichletCalc model rho mu u i vr =
      ⟨1.5 * (u * i) ^ 2, vr * mu,
        if 0 < vr * mu then some (rho * (1.5 * (u * i) ^ 2) / (vr * mu)) else none,
        Option.map (fun w => C_MU * (1.5 * (u * i) ^ 2) * w)
          (if 0 < vr * mu then some (rho * (1.5 * (u * i) ^ 2) / (vr * mu)) else none),
        match model with
        | ModelChoice.SpalartAllmaras => some (vr * mu / rho)
        | _ => none⟩ := rfl

/-- Claim C4: whenever a velocity U is known, the Dirichlet back-calculated
values satisfy `k = 1.5*(U*I)^2`, `mu_t = viscosity_ratio*mu`,
`omega = rho*k/mu_t` when `mu_t > 0` and the infinite sentinel otherwise,
`epsilon = C_mu*k*omega`, and, for Spalart-Allmaras only,
`nu_tilda = viscosity_ratio*mu/rho` (`dirichletCalc` takes no
internal/external branch information, so branch independence is by
construction). -/
theorem dirichlet_back_calculation (model : ModelChoice) (rho mu u i vr : ℝ) :
    (dirichletCalc model rho mu u i vr).k = 1.5 * (u * i) ^ 2 ∧
    (dirichletCalc model rho mu u i vr).muT = vr * mu ∧
    (0 < vr * mu →
      (dirichletCalc model rho mu u i vr).omega
        = some (rho * (1.5 * (u * i) ^ 2) / (vr * mu)) ∧
      (dirichletCalc model rho mu u i vr).epsilon
        = some (C_MU * (1.5 * (u * i) ^ 2) *
            (rho * (1.5 * (u * i) ^ 2) / (vr * mu)))) ∧
    (¬ 0 < vr * mu →
      (dirichletCalc model rho mu u i vr).omega = none ∧
      (dirichletCalc model rho mu u i vr).epsilon = none) ∧
    (dirichletCalc ModelChoice.SpalartAllmaras rho mu u i vr).nuTilda
      = some (vr * mu / rho) ∧
    (model ≠ ModelChoice.SpalartAllmaras →
      (dirichletCalc model rho mu u i vr).nuTilda = none) := by
  refine ⟨rfl, rfl, fun h => ?_, fun h => ?_, rfl, fun h => ?_⟩
  · simp only [dirichletCalc_eq]
    rw [if_pos h]
    exact ⟨rfl, rfl⟩
  · simp only [dirichletCalc_eq]
    rw [if_neg h]
    exact ⟨rfl, rfl⟩
  · cases model with
    | SpalartAllmaras => exact absurd rfl h
    | KEpsilon => rfl
    | KOmega => rfl

/-- Witness for `dirichlet_back_calculation` at rho = mu = U = I = vr = 1,
model k-omega (plus the Spalart-Allmaras conjunct at the same scalars). -/
theorem dirichlet_back_calculation_witness :
    (0 : ℝ) < 1 * 1 ∧
    (dirichletCalc ModelChoice.KOmega 1 1 1 1 1).omega
      = some (1 * (1.5 * ((1 : ℝ) * 1) ^ 2) / (1 * 1)) ∧
    (dirichletCalc ModelChoice.SpalartAllmaras 1 1 1 1 1).nuTilda
      = some ((1 : ℝ) * 1 / 1) ∧
    (dirichletCalc ModelChoice.KOmega 1 1 1 1 1).nuTilda = none := by
  have h : (0 : ℝ) < 1 * 1 := by norm_num
  have t := dirichlet_back_calculation ModelChoice.KOmega 1 1 1 1 1
  exact ⟨h, (t.2.2.1 h).1, t.2.2.2.2.1,
    t.2.2.2.2.2 (fun hc => ModelChoice.noConfusion hc)⟩

/-- Claim C10: for internal-flow inputs that pass through the public
interface (every scalar strictly positive, as forced by the widgets'
`min_value=1e-9`), the resolved length scale is positive, `Re`, `I`, `k` are
positive, the degenerate fallback is not taken (`omega` and `epsilon` are
assigned), and all computed quantities are strictly positive. -/
theorem guarded_internal_flow_positive (rho mu dh u : ℝ) (g : TurbGenSpec)
    (hrho : 0 < rho) (hmu : 0 < mu) (hdh : 0 < dh) (hu : 0 < u)
    (hg : genPositive g) :
    0 < resolve_length_scale g dh ∧
    0 < (internalCalc rho mu dh u (resolve_length_scale g dh)).re ∧
    0 < (internalCalc rho mu dh u (resolve_length_scale g dh)).intensity ∧
    (∃ kv, (internalCalc rho mu dh u (resolve_length_scale g dh)).k = some kv
      ∧ 0 < kv) ∧
    (∃ w, (internalCalc rho mu dh u (resolve_length_scale g dh)).omega = some w
      ∧ 0 < w) ∧
    (∃ e, (internalCalc rho mu dh u (resolve_length_scale g dh)).epsilon = some e
      ∧ 0 < e) ∧
    0 < (internalCalc rho mu dh u (resolve_length_scale g dh)).visc_rat := by
  have hl : 0 < resolve_length_scale g dh := by
    cases g with
    | CrossSectionBased =>
        simp only [resolve_length_scale]
        exact mul_pos (by norm_num) hdh
    | BoundaryLayer m =>
        cases m with
        | Estimated =>
            simp only [resolve_length_scale]
            exact mul_pos (by norm_num) (by linarith)
        | Specified delta =>
            have hd : (0 : ℝ) < delta := hg
            simp only [resolve_length_scale]
            exact mul_pos (by norm_num) hd
    | CharacteristicLength v => exact hg
  have hre : 0 < rho * u * dh / mu := by positivity
  have hi : 0 < 0.16 * (rho * u * dh / mu) ^ (-0.125 : ℝ) :=
    mul_pos (by norm_num) (Real.rpow_pos_of_pos hre _)
  have hk : 0 < 1.5 * (u * (0.16 * (rho * u * dh / mu) ^ (-0.125 : ℝ))) ^ 2 :=
    mul_pos (by norm_num) (pow_pos (mul_pos hu hi) 2)
  have hsq :
      0 < Real.sqrt (1.5 * (u * (0.16 * (rho * u * dh / mu) ^ (-0.125 : ℝ))) ^ 2) :=
    Real.sqrt_pos.mpr hk
  have hcmu : (0 : ℝ) < C_MU ^ (-0.25 : ℝ) :=
    Real.rpow_pos_of_pos (by norm_num [C_MU]) _
  have hw :
      0 < C_MU ^ (-0.25 : ℝ) *
        Real.sqrt (1.5 * (u * (0.16 * (rho * u * dh / mu) ^ (-0.125 : ℝ))) ^ 2) /
        resolve_length_scale g dh :=
    div_pos (mul_pos hcmu hsq) hl
  rw [internalCalc_pos_branch rho mu dh u (resolve_length_scale g dh) hk hl]
  refine ⟨hl, hre, hi, ⟨_, rfl, hk⟩, ⟨_, rfl, hw⟩, ⟨_, rfl, ?_⟩, ?_⟩
  · exact mul_pos (mul_pos (by norm_num [C_MU]) hk) hw
  · exact div_pos (div_pos (mul_pos hrho hk) hw) hmu

/-- Witness for `guarded_internal_flow_positive` at rho = mu = Dh = U = 1
with the cross-section-based length scale. -/
theorem guarded_internal_flow_positive_witness :
    ((0 : ℝ) < 1 ∧ genPositive TurbGenSpec.CrossSectionBased) ∧
    0 < resolve_length_scale TurbGenSpec.CrossSectionBased 1 ∧
    0 < (internalCalc 1 1 1 1
      (resolve_length_scale TurbGenSpec.CrossSectionBased 1)).re ∧
    0 < (internalCalc 1 1 1 1
      (resolve_length_scale TurbGenSpec.CrossSectionBased 1)).intensity ∧
    (∃ kv, (internalCalc 1 1 1 1
      (resolve_length_scale TurbGenSpec.CrossSectionBased 1)).k = some kv
      ∧ 0 < kv) ∧
    (∃ w, (internalCalc 1 1 1 1
      (resolve_length_scale TurbGenSpec.CrossSectionBased 1)).omega = some w
      ∧ 0 < w) ∧
    (∃ e, (internalCalc 1 1 1 1
      (resolve_length_scale TurbGenSpec.CrossSectionBased 1)).epsilon = some e
      ∧ 0 < e) ∧
    0 < (internalCalc 1 1 1 1
      (resolve_length_scale TurbGenSpec.CrossSectionBased 1)).visc_rat :=
  ⟨⟨by norm_num, trivial⟩,
    guarded_internal_flow_positive 1 1 1 1 TurbGenSpec.CrossSectionBased
      (by norm_num) (by norm_num) (by norm_num) (by norm_num) trivial⟩

end TurbCalc
